import Mathlib

/-!
Shallow embedding of the aurora-alerter Alert Evaluation Engine
(src/src/services/alert.js and src/src/services/aurora.js).

Modelling conventions:
- JS numbers that the schema constrains to integers (aurora values,
  thresholds, increment thresholds) are modelled as `Int`.
- Timestamps (`Date.now()`, ISO-8601 strings stored in SQLite) are
  modelled as `Int` milliseconds since the epoch; lexicographic
  comparison of equal-format ISO strings agrees with numeric order.
- Geographic coordinates are real numbers; the haversine computation
  uses `Real.sin`/`Real.cos`/`Real.sqrt` and `Complex.arg` for
  `Math.atan2`.
- The SQLite database rows the engine mutates are carried explicitly in
  `Db` (notification-state rows and history rows); functions that the
  source writes as side-effecting take and return a `Db`.
- The JS `for`-loop accumulator `minDistance = Infinity` is modelled as
  `Option ℝ` with `none` standing for `Infinity`.
- A thrown JS exception is modelled as `Except.error`; in particular the
  read of the undeclared variable `shouldNotify` at alert.js:129 throws
  `ReferenceError` in an ES module, modelled as `JsError.referenceError`.
- The possibility that a SQLite INSERT throws is modelled by a boolean
  oracle passed to the history write.
-/

namespace Aurora

/-- One sample of the NOAA ovation grid: a `[longitude, latitude, aurora]`
tuple (aurora.js destructures `const [lng, lat, aurora] = coord`). -/
structure GridSample where
  lng : ℝ
  lat : ℝ
  aurora : ℤ

/-- A row of the `aurora_history` table: `(alert_id, aurora_value, recorded_at)`. -/
structure HistoryRecord where
  alert_id : ℕ
  aurora_value : ℤ
  recorded_at : ℤ
deriving DecidableEq

/-- A row of the `alert_notification_state` table. -/
structure NotifStateRow where
  alert_id : ℕ
  last_notified_value : ℤ
  last_notified_at : ℤ
deriving DecidableEq

/-- The engine-mutable part of the SQLite database. -/
structure Db where
  notifState : List NotifStateRow
  history : List HistoryRecord
deriving DecidableEq

/-- One row of the alert query in `checkAllAlerts` (alerts joined with
users and LEFT JOINed with `alert_notification_state`, so the two state
columns are nullable). -/
structure AlertRow where
  id : ℕ
  latitude : ℝ
  longitude : ℝ
  threshold : ℤ
  increment_threshold : Option ℤ
  email : String
  last_notified_value : Option ℤ
  last_notified_at : Option ℤ

/-- A JS exception observable by the engine. -/
inductive JsError where
  | referenceError
  | dbError
deriving DecidableEq

/-- A dispatched notification: (alert id, aurora value sent). -/
abbrev Dispatch := ℕ × ℤ

/-- The parsed JSON payload returned by `fetchAuroraData`; the
`coordinates` field may be missing (`auroraData.coordinates || []`). -/
structure AuroraData where
  coordinates : Option (List GridSample)

/-- `fetchAuroraData` rejecting (network error, non-ok status, parse error). -/
inductive FetchError where
  | fetchFailed
deriving DecidableEq

/-- aurora.js `toRadians(degrees)`. -/
noncomputable def toRadians (degrees : ℝ) : ℝ :=
  degrees * (Real.pi / 180)

/-- JS `Math.atan2(y, x)`, as the complex argument of `x + y i`. -/
noncomputable def atan2 (y x : ℝ) : ℝ :=
  Complex.arg ⟨x, y⟩

/-- aurora.js `haversineDistance(lat1, lng1, lat2, lng2)`: great-circle
distance in kilometres with Earth radius 6371 km. -/
noncomputable def haversineDistance (lat1 lng1 lat2 lng2 : ℝ) : ℝ :=
  let R : ℝ := 6371
  let dLat := toRadians (lat2 - lat1)
  let dLng := toRadians (lng2 - lng1)
  let a :=
    Real.sin (dLat / 2) * Real.sin (dLat / 2) +
    Real.cos (toRadians lat1) * Real.cos (toRadians lat2) *
    Real.sin (dLng / 2) * Real.sin (dLng / 2)
  let c := 2 * atan2 (Real.sqrt a) (Real.sqrt (1 - a))
  R * c

/-- The body of the `for (const coord of coordinates)` loop of
`findClosestCoordinate`, threading the `(closest, minDistance)`
accumulator; `minDistance = Infinity` is encoded as `none`. -/
noncomputable def closestLoop (d : GridSample → ℝ) :
    List GridSample → Option GridSample × Option ℝ → Option GridSample × Option ℝ
  | [], acc => acc
  | c :: cs, acc =>
      closestLoop d cs
        (match acc.2 with
         | none => (some c, some (d c))
         | some m => if d c < m then (some c, some (d c)) else acc)

/-- aurora.js `findClosestCoordinate(coordinates, targetLat, targetLng)`:
linear scan keeping the sample of strictly smallest haversine distance,
starting from `closest = null`, `minDistance = Infinity`. -/
noncomputable def findClosestCoordinate
    (coordinates : List GridSample) (targetLat targetLng : ℝ) : Option GridSample :=
  (closestLoop (fun coord => haversineDistance targetLat targetLng coord.lat coord.lng)
    coordinates (none, none)).1

/-- `12 * 60 * 60 * 1000` milliseconds (alert.js:105). -/
def twelveHoursMs : ℤ := 12 * 60 * 60 * 1000

/-- JS `v || dflt` on a nullable integer column: `null`/`undefined` and
`0` are falsy, every other integer is truthy (alert.js:91). -/
def jsOrDefault (v : Option ℤ) (dflt : ℤ) : ℤ :=
  match v with
  | none => dflt
  | some x => if x = 0 then dflt else x

/-- alert.js:100-106: `isExpired = !lastNotifiedAt || lastNotifiedAt <
twelveHoursAgo`, with `twelveHoursAgo = now - 12h`. -/
def isExpired (lastNotifiedAt : Option ℤ) (now : ℤ) : Bool :=
  match lastNotifiedAt with
  | none => true
  | some t => decide (t < now - twelveHoursMs)

/-- alert.js:89-163, the body of `checkSingleAlert` after the nearest
sample has been resolved, as a function of `closest.aurora`. Returns the
function's boolean result together with the database and the list of
notifications dispatched. On the paths that survive both the threshold
check (line 94) and the dedup check (line 119), execution reaches
`if (!shouldNotify)` at line 129; `shouldNotify` is not declared in
this scope (the module is strict), so the read throws a
`ReferenceError` before any dispatch — lines 130-163 are unreachable. -/
def checkAfterMatch (alert : AlertRow) (currentAuroraValue : ℤ) (now : ℤ) (db : Db) :
    Except JsError (Bool × Db × List Dispatch) :=
  let threshold := alert.threshold
  let incrementThreshold := jsOrDefault alert.increment_threshold 10
  if currentAuroraValue < threshold then
    .ok (false, db, [])
  else
    let expired := isExpired alert.last_notified_at now
    match alert.last_notified_value with
    | none =>
        -- first-notification branch falls through to alert.js:129 and throws
        .error .referenceError
    | some lastNotifiedValue =>
        let increase := currentAuroraValue - lastNotifiedValue
        if expired = false ∧ increase < incrementThreshold then
          .ok (false, db, [])
        else
          -- would-notify branch reaches alert.js:129 and throws
          .error .referenceError

/-- alert.js:76-164 `checkSingleAlert(alert, coordinates)`: resolve the
nearest grid sample and run the threshold/dedup/notify logic on it.
`now` is the ambient `Date.now()`; the database is threaded explicitly. -/
noncomputable def checkSingleAlert (alert : AlertRow) (coordinates : List GridSample)
    (now : ℤ) (db : Db) : Except JsError (Bool × Db × List Dispatch) :=
  match findClosestCoordinate coordinates alert.latitude alert.longitude with
  | none => .ok (false, db, [])
  | some closest => checkAfterMatch alert closest.aurora now db

/-- alert.js:171-188 `storeAuroraHistory(alert, coordinates)`: append one
`aurora_history` row for the nearest sample, or do nothing when there is
none. `insertFails` models the SQLite INSERT throwing. -/
noncomputable def storeAuroraHistory (insertFails : Bool) (alert : AlertRow)
    (coordinates : List GridSample) (now : ℤ) (db : Db) : Except JsError Db :=
  match findClosestCoordinate coordinates alert.latitude alert.longitude with
  | none => .ok db
  | some closest =>
      if insertFails then .error .dbError
      else .ok { db with history := db.history ++ [⟨alert.id, closest.aurora, now⟩] }

/-- alert.js:195-206 `updateNotificationState(alertId, auroraValue)`:
upsert of the `alert_notification_state` row keyed by alert id.
(Unreachable in the current source: its only call site, alert.js:152,
sits after the throwing read of `shouldNotify` at line 129.) -/
def updateNotificationState (alertId : ℕ) (auroraValue : ℤ) (now : ℤ) (db : Db) : Db :=
  { db with notifState :=
      if db.notifState.any (fun r => r.alert_id == alertId) then
        db.notifState.map (fun r =>
          if r.alert_id == alertId then ⟨alertId, auroraValue, now⟩ else r)
      else
        db.notifState ++ [⟨alertId, auroraValue, now⟩] }

/-- Outcome of the per-alert loop body (alert.js:49-62). -/
structure AlertOutcome where
  db : Db
  dispatched : List Dispatch
  sent : Bool
  errorLogged : Option JsError
deriving DecidableEq

/-- alert.js:50-61, the `try { storeAuroraHistory; checkSingleAlert }
catch { log }` body for one alert: an exception is logged and the loop
continues; database writes made before the exception persist. -/
noncomputable def processAlert (insertFails : ℕ → Bool) (coordinates : List GridSample)
    (now : ℤ) (db : Db) (alert : AlertRow) : AlertOutcome :=
  match storeAuroraHistory (insertFails alert.id) alert coordinates now db with
  | .error e => ⟨db, [], false, some e⟩
  | .ok db1 =>
      match checkSingleAlert alert coordinates now db1 with
      | .ok (sent, db2, ds) => ⟨db2, ds, sent, none⟩
      | .error e => ⟨db1, [], false, some e⟩

/-- Result of one evaluation cycle. -/
structure CycleResult where
  db : Db
  dispatched : List Dispatch
  notificationsSent : ℕ
deriving DecidableEq

/-- alert.js:47-62, the `for (const alert of alerts)` loop with its
`notificationsSent` counter. -/
noncomputable def runAlerts (insertFails : ℕ → Bool) (coordinates : List GridSample)
    (now : ℤ) (alerts : List AlertRow) (db : Db) : CycleResult :=
  match alerts with
  | [] => ⟨db, [], 0⟩
  | a :: rest =>
      let o := processAlert insertFails coordinates now db a
      let r := runAlerts insertFails coordinates now rest o.db
      ⟨r.db, o.dispatched ++ r.dispatched,
        (if o.sent then 1 else 0) + r.notificationsSent⟩

/-- alert.js:15-68 `checkAllAlerts()`: fetch the grid (a rejection hits
the outer catch and aborts), default a missing `coordinates` field to
`[]`, abort on an empty grid, otherwise run the per-alert loop. The
active alerts (the SQL join, including the LEFT-JOINed notification
state) are a parameter since the engine only reads them. -/
noncomputable def checkAllAlerts (insertFails : ℕ → Bool)
    (fetched : Except FetchError AuroraData) (alerts : List AlertRow)
    (now : ℤ) (db : Db) : CycleResult :=
  match fetched with
  | .error _ => ⟨db, [], 0⟩
  | .ok auroraData =>
      let coordinates := auroraData.coordinates.getD []
      if coordinates.length = 0 then ⟨db, [], 0⟩
      else runAlerts insertFails coordinates now alerts db

/-- `24 * 60 * 60 * 1000` milliseconds (alert.js:212). -/
def twentyFourHoursMs : ℤ := 24 * 60 * 60 * 1000

/-- alert.js:211-222 `cleanupOldHistory()`: `DELETE FROM aurora_history
WHERE recorded_at < now - 24h`; also returns `result.changes`, the
number of rows deleted. -/
def cleanupOldHistory (now : ℤ) (db : Db) : Db × ℕ :=
  let twentyFourHoursAgo := now - twentyFourHoursMs
  ({ db with history :=
      db.history.filter (fun r => !decide (r.recorded_at < twentyFourHoursAgo)) },
   (db.history.filter (fun r => decide (r.recorded_at < twentyFourHoursAgo))).length)

/-- A database with no notification-state rows and no history rows. -/
def emptyDb : Db := ⟨[], []⟩

/-- The history records that processing one alert in isolation (against
an empty database) appends for the given grid and clock. -/
noncomputable def perAlertHistory (insertFails : ℕ → Bool)
    (coordinates : List GridSample) (now : ℤ) (alert : AlertRow) : List HistoryRecord :=
  (processAlert insertFails coordinates now emptyDb alert).db.history

/-- Derived predicate (not a source function, introduced for the
analysis): the conditions under which `checkAfterMatch` returns `false`
without reaching the throwing read at alert.js:129 — value below
threshold, or deduplicated away (not expired and increase below the
increment threshold). -/
def suppresses (a : AlertRow) (v now : ℤ) : Bool :=
  decide (v < a.threshold) ||
    (match a.last_notified_value with
     | none => false
     | some lv =>
         !(isExpired a.last_notified_at now) &&
           decide (v - lv < jsOrDefault a.increment_threshold 10))

/-- Concrete fixture: a grid sample at the origin with the given aurora value. -/
def gridSampleAt (v : ℤ) : GridSample := ⟨0, 0, v⟩

/-- Concrete fixture: an alert at the origin with threshold 15 and
increment threshold 10 (the spec scenario), with the given prior
notification state columns. -/
def alertAtOrigin (lastVal lastAt : Option ℤ) : AlertRow :=
  ⟨1, 0, 0, 15, some 10, "user@example.com", lastVal, lastAt⟩

/-- Concrete fixture: a second alert with a distinct id. -/
def secondAlert : AlertRow :=
  ⟨2, 0, 0, 15, some 10, "other@example.com", none, none⟩

end Aurora

namespace Aurora

lemma checkAfterMatch_eq (a : AlertRow) (v now : ℤ) (db : Db) :
    checkAfterMatch a v now db =
      if suppresses a v now then .ok (false, db, []) else .error .referenceError := by
  unfold checkAfterMatch suppresses
  rcases hlv : a.last_notified_value with _ | lv
  · by_cases hv : v < a.threshold <;> simp [hv]
  · by_cases hv : v < a.threshold
    · simp [hv]
    · by_cases hexp : isExpired a.last_notified_at now
      · simp [hv, hexp]
      · by_cases hinc : v - lv < jsOrDefault a.increment_threshold 10 <;>
          simp [hv, hexp, hinc]

lemma checkSingleAlert_eq (a : AlertRow) (coords : List GridSample) (now : ℤ) (db : Db) :
    checkSingleAlert a coords now db =
      match findClosestCoordinate coords a.latitude a.longitude with
      | none => .ok (false, db, [])
      | some s =>
          if suppresses a s.aurora now then .ok (false, db, [])
          else .error .referenceError := by
  unfold checkSingleAlert
  rcases hm : findClosestCoordinate coords a.latitude a.longitude with _ | s
  · rfl
  · exact checkAfterMatch_eq a s.aurora now db

lemma processAlert_eq (ins : ℕ → Bool) (coords : List GridSample) (now : ℤ)
    (db : Db) (a : AlertRow) :
    processAlert ins coords now db a =
      match findClosestCoordinate coords a.latitude a.longitude with
      | none => ⟨db, [], false, none⟩
      | some s =>
          if ins a.id then ⟨db, [], false, some .dbError⟩
          else if suppresses a s.aurora now then
            ⟨⟨db.notifState, db.history ++ [⟨a.id, s.aurora, now⟩]⟩, [], false, none⟩
          else
            ⟨⟨db.notifState, db.history ++ [⟨a.id, s.aurora, now⟩]⟩, [], false,
              some .referenceError⟩ := by
  unfold processAlert storeAuroraHistory
  rcases hm : findClosestCoordinate coords a.latitude a.longitude with _ | s
  · simp [checkSingleAlert_eq, hm]
  · by_cases hins : ins a.id
    · simp [hins]
    · by_cases hsup : suppresses a s.aurora now <;>
        simp [hins, hsup, checkSingleAlert_eq, hm]

lemma perAlertHistory_eq (ins : ℕ → Bool) (coords : List GridSample) (now : ℤ)
    (a : AlertRow) :
    perAlertHistory ins coords now a =
      match findClosestCoordinate coords a.latitude a.longitude with
      | none => []
      | some s => if ins a.id then [] else [⟨a.id, s.aurora, now⟩] := by
  unfold perAlertHistory
  rw [processAlert_eq]
  rcases hm : findClosestCoordinate coords a.latitude a.longitude with _ | s
  · simp [emptyDb]
  · by_cases hins : ins a.id
    · simp [hins, emptyDb]
    · by_cases hsup : suppresses a s.aurora now <;> simp [hins, hsup, emptyDb]

lemma processAlert_db_history (ins : ℕ → Bool) (coords : List GridSample) (now : ℤ)
    (db : Db) (a : AlertRow) :
    (processAlert ins coords now db a).db.history
      = db.history ++ perAlertHistory ins coords now a := by
  rw [processAlert_eq, perAlertHistory_eq]
  rcases hm : findClosestCoordinate coords a.latitude a.longitude with _ | s
  · simp
  · by_cases hins : ins a.id
    · simp [hins]
    · by_cases hsup : suppresses a s.aurora now <;> simp [hins, hsup]

lemma processAlert_notifState (ins : ℕ → Bool) (coords : List GridSample) (now : ℤ)
    (db : Db) (a : AlertRow) :
    (processAlert ins coords now db a).db.notifState = db.notifState := by
  rw [processAlert_eq]
  rcases hm : findClosestCoordinate coords a.latitude a.longitude with _ | s
  · simp
  · by_cases hins : ins a.id
    · simp [hins]
    · by_cases hsup : suppresses a s.aurora now <;> simp [hins, hsup]

lemma processAlert_dispatched (ins : ℕ → Bool) (coords : List GridSample) (now : ℤ)
    (db : Db) (a : AlertRow) :
    (processAlert ins coords now db a).dispatched = [] := by
  rw [processAlert_eq]
  rcases hm : findClosestCoordinate coords a.latitude a.longitude with _ | s
  · simp
  · by_cases hins : ins a.id
    · simp [hins]
    · by_cases hsup : suppresses a s.aurora now <;> simp [hins, hsup]

lemma processAlert_sent (ins : ℕ → Bool) (coords : List GridSample) (now : ℤ)
    (db : Db) (a : AlertRow) :
    (processAlert ins coords now db a).sent = false := by
  rw [processAlert_eq]
  rcases hm : findClosestCoordinate coords a.latitude a.longitude with _ | s
  · simp
  · by_cases hins : ins a.id
    · simp [hins]
    · by_cases hsup : suppresses a s.aurora now <;> simp [hins, hsup]

lemma processAlert_error_indep (ins : ℕ → Bool) (coords : List GridSample) (now : ℤ)
    (db : Db) (a : AlertRow) :
    (processAlert ins coords now db a).errorLogged
      = (processAlert ins coords now emptyDb a).errorLogged := by
  rw [processAlert_eq, processAlert_eq]
  rcases hm : findClosestCoordinate coords a.latitude a.longitude with _ | s
  · simp
  · by_cases hins : ins a.id
    · simp [hins]
    · by_cases hsup : suppresses a s.aurora now <;> simp [hins, hsup]

lemma runAlerts_db_history (ins : ℕ → Bool) (coords : List GridSample) (now : ℤ)
    (alerts : List AlertRow) (db : Db) :
    (runAlerts ins coords now alerts db).db.history
      = db.history ++ alerts.flatMap (perAlertHistory ins coords now) := by
  induction alerts generalizing db with
  | nil => simp [runAlerts]
  | cons a rest ih =>
      simp only [runAlerts]
      rw [ih, processAlert_db_history]
      simp

lemma runAlerts_notifState (ins : ℕ → Bool) (coords : List GridSample) (now : ℤ)
    (alerts : List AlertRow) (db : Db) :
    (runAlerts ins coords now alerts db).db.notifState = db.notifState := by
  induction alerts generalizing db with
  | nil => simp [runAlerts]
  | cons a rest ih =>
      simp only [runAlerts]
      rw [ih, processAlert_notifState]

lemma runAlerts_dispatched (ins : ℕ → Bool) (coords : List GridSample) (now : ℤ)
    (alerts : List AlertRow) (db : Db) :
    (runAlerts ins coords now alerts db).dispatched = [] := by
  induction alerts generalizing db with
  | nil => simp [runAlerts]
  | cons a rest ih =>
      simp only [runAlerts]
      rw [processAlert_dispatched, ih]
      simp

lemma runAlerts_sent (ins : ℕ → Bool) (coords : List GridSample) (now : ℤ)
    (alerts : List AlertRow) (db : Db) :
    (runAlerts ins coords now alerts db).notificationsSent = 0 := by
  induction alerts generalizing db with
  | nil => simp [runAlerts]
  | cons a rest ih =>
      simp only [runAlerts]
      rw [processAlert_sent, ih]
      simp

lemma closestLoop_some (d : GridSample → ℝ) (l : List GridSample) (b : GridSample) :
    (closestLoop d l (some b, some (d b)) = (some b, some (d b)) ∧ ∀ s ∈ l, d b ≤ d s)
    ∨ (∃ l₁ r l₂, l = l₁ ++ r :: l₂ ∧
        closestLoop d l (some b, some (d b)) = (some r, some (d r)) ∧
        d r < d b ∧ (∀ s ∈ l, d r ≤ d s) ∧ ∀ s ∈ l₁, d r < d s) := by
  induction l generalizing b with
  | nil =>
      left
      exact ⟨rfl, by simp⟩
  | cons c cs ih =>
      by_cases hc : d c < d b
      · -- the head strictly improves on the running best
        have hstep : closestLoop d (c :: cs) (some b, some (d b))
            = closestLoop d cs (some c, some (d c)) := by
          simp [closestLoop, hc]
        rcases ih c with ⟨heq, hmin⟩ | ⟨l₁, r, l₂, hsplit, heq, hlt, hmin, hfirst⟩
        · right
          refine ⟨[], c, cs, by simp, by rw [hstep, heq], hc, ?_, by simp⟩
          intro s hs
          rcases List.mem_cons.mp hs with hsc | hs
          · rw [hsc]
          · exact hmin s hs
        · right
          refine ⟨c :: l₁, r, l₂, by rw [hsplit]; rfl, by rw [hstep, heq],
            lt_trans hlt hc, ?_, ?_⟩
          · intro s hs
            rcases List.mem_cons.mp hs with hsc | hs
            · rw [hsc]; exact le_of_lt hlt
            · exact hmin s (hsplit ▸ hs)
          · intro s hs
            rcases List.mem_cons.mp hs with hsc | hs
            · rw [hsc]; exact hlt
            · exact hfirst s hs
      · -- the head does not improve; best stays b
        have hstep : closestLoop d (c :: cs) (some b, some (d b))
            = closestLoop d cs (some b, some (d b)) := by
          simp [closestLoop, hc]
        rcases ih b with ⟨heq, hmin⟩ | ⟨l₁, r, l₂, hsplit, heq, hlt, hmin, hfirst⟩
        · left
          refine ⟨by rw [hstep, heq], ?_⟩
          intro s hs
          rcases List.mem_cons.mp hs with hsc | hs
          · rw [hsc]; exact le_of_not_lt hc
          · exact hmin s hs
        · right
          refine ⟨c :: l₁, r, l₂, by rw [hsplit]; rfl, by rw [hstep, heq], hlt, ?_, ?_⟩
          · intro s hs
            rcases List.mem_cons.mp hs with hsc | hs
            · rw [hsc]; exact le_of_lt (lt_of_lt_of_le hlt (le_of_not_lt hc))
            · exact hmin s (hsplit ▸ hs)
          · intro s hs
            rcases List.mem_cons.mp hs with hsc | hs
            · rw [hsc]; exact lt_of_lt_of_le hlt (le_of_not_lt hc)
            · exact hfirst s hs

lemma findClosestCoordinate_singleton (s : GridSample) (la ln : ℝ) :
    findClosestCoordinate [s] la ln = some s := by
  simp [findClosestCoordinate, closestLoop]

lemma perAlertHistory_ids (ins : ℕ → Bool) (coords : List GridSample) (now : ℤ)
    (c : AlertRow) (rec : HistoryRecord)
    (h : rec ∈ perAlertHistory ins coords now c) : rec.alert_id = c.id := by
  rw [perAlertHistory_eq] at h
  rcases hm : findClosestCoordinate coords c.latitude c.longitude with _ | s
  · rw [hm] at h; simp at h
  · rw [hm] at h
    by_cases hins : ins c.id
    · simp [hins] at h
    · simp [hins] at h
      rw [h]

lemma flatMap_filter_id_nil (ins : ℕ → Bool) (coords : List GridSample) (now : ℤ)
    (l : List AlertRow) (i : ℕ) (hne : ∀ c ∈ l, c.id ≠ i) :
    (l.flatMap (perAlertHistory ins coords now)).filter (fun r => r.alert_id == i) = [] := by
  rw [List.filter_eq_nil_iff]
  intro rec hrec
  rcases List.mem_flatMap.mp hrec with ⟨c, hc, hmem⟩
  have := perAlertHistory_ids ins coords now c rec hmem
  simp only [beq_iff_eq, this]
  exact hne c hc

lemma flatMap_filter_id_single (ins : ℕ → Bool) (coords : List GridSample) (now : ℤ)
    (alerts : List AlertRow) (a : AlertRow) (s : GridSample)
    (ha : a ∈ alerts) (hids : (alerts.map AlertRow.id).Nodup)
    (hm : findClosestCoordinate coords a.latitude a.longitude = some s)
    (hins : ins a.id = false) :
    (alerts.flatMap (perAlertHistory ins coords now)).filter (fun r => r.alert_id == a.id)
      = [⟨a.id, s.aurora, now⟩] := by
  induction alerts with
  | nil => cases ha
  | cons b rest ih =>
      rw [List.flatMap_cons, List.filter_append]
      rcases List.mem_cons.mp ha with hab | harest
      · -- a is the head; the tail contains no alert with a's id
        have hrest : ∀ c ∈ rest, c.id ≠ a.id := by
          intro c hc hceq
          have hbm : b.id ∉ rest.map AlertRow.id := (List.nodup_cons.mp hids).1
          have hcm : c.id ∈ rest.map AlertRow.id := List.mem_map_of_mem AlertRow.id hc
          rw [hceq, hab] at hcm
          exact hbm hcm
        rw [flatMap_filter_id_nil ins coords now rest a.id hrest, ← hab,
          perAlertHistory_eq, hm, hins]
        simp
      · -- a is in the tail; the head has a different id
        have hbne : b.id ≠ a.id := by
          intro hceq
          have hbm : b.id ∉ rest.map AlertRow.id := (List.nodup_cons.mp hids).1
          have ham : a.id ∈ rest.map AlertRow.id := List.mem_map_of_mem AlertRow.id harest
          rw [← hceq] at ham
          exact hbm ham
        have hhead :
            (perAlertHistory ins coords now b).filter (fun r => r.alert_id == a.id) = [] := by
          rw [List.filter_eq_nil_iff]
          intro rec hrec
          have := perAlertHistory_ids ins coords now b rec hrec
          simp only [beq_iff_eq, this]
          exact hbne
        rw [hhead, ih harest (List.nodup_cons.mp hids).2]
        simp

/-- Claim C1. The claim states that an alert with no prior
NotificationState whose matched value meets its threshold gets a Notify
decision, a dispatched notification and, on success, state (value, now).
On the code this fails: with no prior state and currentValue 20 ≥
threshold 15, `checkSingleAlert` reaches the read of the undeclared
`shouldNotify` (alert.js:129) and throws a ReferenceError before any
dispatch, so the cycle dispatches nothing and writes no notification
state. -/
theorem C1_first_qualifying_observation_throws :
    checkSingleAlert (alertAtOrigin none none) [gridSampleAt 20] 0 emptyDb
      = .error .referenceError ∧
    (runAlerts (fun _ => false) [gridSampleAt 20] 0 [alertAtOrigin none none] emptyDb).dispatched
      = [] ∧
    (runAlerts (fun _ => false) [gridSampleAt 20] 0 [alertAtOrigin none none] emptyDb).db.notifState
      = [] := by
  refine ⟨?_, runAlerts_dispatched _ _ _ _ _, runAlerts_notifState _ _ _ _ _⟩
  rw [checkSingleAlert_eq, findClosestCoordinate_singleton]
  have hsup : suppresses (alertAtOrigin none none) (gridSampleAt 20).aurora 0 = false := by
    decide
  simp [hsup]

/-- Claim C2. The claim states that with prior state and currentValue ≥
threshold the decision is Notify iff the 12-hour window expired or the
increase reached the increment threshold, and Suppress otherwise. The
suppress half holds, but on each would-notify path the code throws a
ReferenceError at the `shouldNotify` read (alert.js:129) instead of
notifying: shown here on the expired path (elapsed just over 12h,
increase 5 < 10) and on the increment path (not expired, increase 12 ≥
10), with the suppress path (not expired, increase 5 < 10) returning
false. -/
theorem C2_renotification_escapes_throw :
    checkSingleAlert (alertAtOrigin (some 20) (some 0)) [gridSampleAt 25]
        (twelveHoursMs + 1) emptyDb
      = .error .referenceError ∧
    checkSingleAlert (alertAtOrigin (some 20) (some 1000)) [gridSampleAt 32] 1000 emptyDb
      = .error .referenceError ∧
    checkSingleAlert (alertAtOrigin (some 20) (some 0)) [gridSampleAt 25] 1000 emptyDb
      = .ok (false, emptyDb, []) := by
  refine ⟨?_, ?_, ?_⟩ <;>
    rw [checkSingleAlert_eq, findClosestCoordinate_singleton]
  · have hsup : suppresses (alertAtOrigin (some 20) (some 0)) (gridSampleAt 25).aurora
        (twelveHoursMs + 1) = false := by decide
    simp [hsup]
  · have hsup : suppresses (alertAtOrigin (some 20) (some 1000)) (gridSampleAt 32).aurora
        1000 = false := by decide
    simp [hsup]
  · have hsup : suppresses (alertAtOrigin (some 20) (some 0)) (gridSampleAt 25).aurora
        1000 = true := by decide
    simp [hsup]

/-- Claim C3: whenever the matched value is strictly below the alert's
threshold, `checkSingleAlert` returns false (Suppress) with the database
unchanged and nothing dispatched, for any prior notification state. -/
theorem C3_below_threshold_suppresses (a : AlertRow) (coords : List GridSample)
    (now : ℤ) (db : Db) (s : GridSample)
    (hm : findClosestCoordinate coords a.latitude a.longitude = some s)
    (hv : s.aurora < a.threshold) :
    checkSingleAlert a coords now db = .ok (false, db, []) := by
  rw [checkSingleAlert_eq, hm]
  have hsup : suppresses a s.aurora now = true := by
    unfold suppresses
    simp [hv]
  simp [hsup]

/-- Witness for C3 at a concrete input: threshold 15, prior state
(3, 0), matched value 7 < 15. -/
theorem C3_below_threshold_suppresses_witness :
    checkSingleAlert (alertAtOrigin (some 3) (some 0)) [gridSampleAt 7] 0 emptyDb
      = .ok (false, emptyDb, []) :=
  C3_below_threshold_suppresses (alertAtOrigin (some 3) (some 0)) [gridSampleAt 7]
    0 emptyDb (gridSampleAt 7)
    (findClosestCoordinate_singleton (gridSampleAt 7) _ _) (by decide)

/-- Claim C4: a per-alert evaluation pass never changes the
`alert_notification_state` table unless a dispatch succeeded — in the
current code the would-dispatch path throws before dispatching
(alert.js:129), so on Suppress, on any thrown error, and over a whole
cycle, the notification state is left untouched. -/
theorem C4_state_untouched_without_successful_dispatch (ins : ℕ → Bool)
    (coords : List GridSample) (now : ℤ) (db db2 : Db) (a : AlertRow)
    (alerts : List AlertRow) :
    (processAlert ins coords now db a).db.notifState = db.notifState ∧
    (runAlerts ins coords now alerts db2).db.notifState = db2.notifState :=
  ⟨processAlert_notifState ins coords now db a,
   runAlerts_notifState ins coords now alerts db2⟩

/-- Claim C5: a failed fetch, a payload without a `coordinates` field,
and an empty sample list all abort the cycle before per-alert
processing: the database (hence history) is unchanged, nothing is
dispatched, and zero notifications are counted. -/
theorem C5_abort_on_failed_or_empty_fetch (ins : ℕ → Bool) (alerts : List AlertRow)
    (now : ℤ) (db : Db) :
    (∀ e, checkAllAlerts ins (.error e) alerts now db = ⟨db, [], 0⟩) ∧
    (∀ data : AuroraData, data.coordinates = none ∨ data.coordinates = some [] →
      checkAllAlerts ins (.ok data) alerts now db = ⟨db, [], 0⟩) := by
  constructor
  · intro e
    rfl
  · intro data h
    rcases h with h | h <;> simp [checkAllAlerts, h]

/-- Witness for C5 at a concrete input: a payload whose `coordinates`
field is missing aborts the cycle with no effects. -/
theorem C5_abort_on_failed_or_empty_fetch_witness :
    checkAllAlerts (fun _ => false) (.ok ⟨none⟩) [alertAtOrigin none none] 0 emptyDb
      = ⟨emptyDb, [], 0⟩ :=
  (C5_abort_on_failed_or_empty_fetch (fun _ => false) [alertAtOrigin none none] 0
    emptyDb).2 ⟨none⟩ (Or.inl rfl)

/-- Claim C6: when processing one alert fails (its error is caught and
logged by the per-alert try/catch), every other alert of the cycle is
still processed: the cycle's history is exactly the initial history
followed by each alert's own isolated contribution, the failing alert's
included, in order. -/
theorem C6_per_alert_failure_isolated (ins : ℕ → Bool) (coords : List GridSample)
    (now : ℤ) (db : Db) (pre post : List AlertRow) (bad : AlertRow)
    (hfail : (processAlert ins coords now db bad).errorLogged ≠ none) :
    (runAlerts ins coords now (pre ++ bad :: post) db).db.history
      = db.history
        ++ pre.flatMap (perAlertHistory ins coords now)
        ++ perAlertHistory ins coords now bad
        ++ post.flatMap (perAlertHistory ins coords now) := by
  rw [runAlerts_db_history]
  simp

/-- Witness for C6 at a concrete input: the first alert's history INSERT
throws (caught and logged), and the second alert is still processed. -/
theorem C6_per_alert_failure_isolated_witness :
    (processAlert (fun i => i == 1) [gridSampleAt 20] 0 emptyDb
        (alertAtOrigin none none)).errorLogged ≠ none ∧
    (runAlerts (fun i => i == 1) [gridSampleAt 20] 0
        ([] ++ alertAtOrigin none none :: [secondAlert]) emptyDb).db.history
      = emptyDb.history
        ++ ([] : List AlertRow).flatMap (perAlertHistory (fun i => i == 1) [gridSampleAt 20] 0)
        ++ perAlertHistory (fun i => i == 1) [gridSampleAt 20] 0 (alertAtOrigin none none)
        ++ [secondAlert].flatMap (perAlertHistory (fun i => i == 1) [gridSampleAt 20] 0) := by
  have hfail : (processAlert (fun i => i == 1) [gridSampleAt 20] 0 emptyDb
      (alertAtOrigin none none)).errorLogged ≠ none := by
    rw [processAlert_eq, findClosestCoordinate_singleton]
    simp [alertAtOrigin]
  exact ⟨hfail, C6_per_alert_failure_isolated (fun i => i == 1) [gridSampleAt 20] 0
    emptyDb [] [secondAlert] (alertAtOrigin none none) hfail⟩

/-- Claim C7: on a non-empty sample list `findClosestCoordinate` returns
the sample minimizing the haversine distance (Earth radius 6371 km is
baked into `haversineDistance`) to the target, with ties resolved to the
first minimizer in input order (every earlier sample is strictly
farther); on the empty list it returns none. -/
theorem C7_nearest_is_first_haversine_minimizer (S : List GridSample) (la ln : ℝ) :
    (S = [] → findClosestCoordinate S la ln = none) ∧
    (S ≠ [] → ∃ pre r post, S = pre ++ r :: post ∧
      findClosestCoordinate S la ln = some r ∧
      (∀ s ∈ S, haversineDistance la ln r.lat r.lng ≤ haversineDistance la ln s.lat s.lng) ∧
      (∀ s ∈ pre, haversineDistance la ln r.lat r.lng < haversineDistance la ln s.lat s.lng)) := by
  constructor
  · intro h
    rw [h]
    rfl
  · intro h
    rcases S with _ | ⟨c, cs⟩
    · exact absurd rfl h
    · have hstep : findClosestCoordinate (c :: cs) la ln
          = (closestLoop (fun s => haversineDistance la ln s.lat s.lng) cs
              (some c, some (haversineDistance la ln c.lat c.lng))).1 := rfl
      rcases closestLoop_some (fun s => haversineDistance la ln s.lat s.lng) cs c with
        ⟨heq, hmin⟩ | ⟨l₁, r, l₂, hsplit, heq, hlt, hmin, hfirst⟩
      · refine ⟨[], c, cs, rfl, by rw [hstep, heq], ?_, by simp⟩
        intro s hs
        rcases List.mem_cons.mp hs with hsc | hs
        · rw [hsc]
        · exact hmin s hs
      · refine ⟨c :: l₁, r, l₂, by rw [hsplit]; rfl, by rw [hstep, heq], ?_, ?_⟩
        · intro s hs
          rcases List.mem_cons.mp hs with hsc | hs
          · rw [hsc]
            exact le_of_lt hlt
          · exact hmin s (hsplit ▸ hs)
        · intro s hs
          rcases List.mem_cons.mp hs with hsc | hs
          · rw [hsc]
            exact hlt
          · exact hfirst s hs

/-- Witness for C7 at a concrete input: a one-sample list. -/
theorem C7_nearest_is_first_haversine_minimizer_witness :
    ∃ pre r post, ([gridSampleAt 5] : List GridSample) = pre ++ r :: post ∧
      findClosestCoordinate [gridSampleAt 5] 0 0 = some r ∧
      (∀ s ∈ ([gridSampleAt 5] : List GridSample),
        haversineDistance 0 0 r.lat r.lng ≤ haversineDistance 0 0 s.lat s.lng) ∧
      (∀ s ∈ pre, haversineDistance 0 0 r.lat r.lng < haversineDistance 0 0 s.lat s.lng) :=
  (C7_nearest_is_first_haversine_minimizer [gridSampleAt 5] 0 0).2 (by simp)

/-- Claim C8: an alert that resolves to a nearest sample gets exactly
one history record `(alert id, matched value, now)` appended by the
cycle — independent of the notify/suppress outcome and of dispatch,
which the statement places no condition on. Alert ids are pairwise
distinct (they come from a primary-key column) and the alert's own
INSERT is assumed not to throw. -/
theorem C8_exactly_one_history_record (ins : ℕ → Bool) (coords : List GridSample)
    (now : ℤ) (alerts : List AlertRow) (db : Db) (a : AlertRow) (s : GridSample)
    (ha : a ∈ alerts) (hids : (alerts.map AlertRow.id).Nodup)
    (hm : findClosestCoordinate coords a.latitude a.longitude = some s)
    (hins : ins a.id = false) :
    ((runAlerts ins coords now alerts db).db.history.filter (fun r => r.alert_id == a.id))
      = db.history.filter (fun r => r.alert_id == a.id) ++ [⟨a.id, s.aurora, now⟩] := by
  rw [runAlerts_db_history, List.filter_append,
    flatMap_filter_id_single ins coords now alerts a s ha hids hm hins]

/-- Witness for C8 at a concrete input: two alerts, the first resolving
to the sample with value 20; exactly one record is appended for it. -/
theorem C8_exactly_one_history_record_witness :
    ((runAlerts (fun _ => false) [gridSampleAt 20] 0
        [alertAtOrigin none none, secondAlert] emptyDb).db.history.filter
          (fun r => r.alert_id == (alertAtOrigin none none).id))
      = emptyDb.history.filter (fun r => r.alert_id == (alertAtOrigin none none).id)
          ++ [⟨(alertAtOrigin none none).id, (gridSampleAt 20).aurora, 0⟩] :=
  C8_exactly_one_history_record (fun _ => false) [gridSampleAt 20] 0
    [alertAtOrigin none none, secondAlert] emptyDb (alertAtOrigin none none)
    (gridSampleAt 20) (by simp) (by decide)
    (findClosestCoordinate_singleton (gridSampleAt 20) _ _) rfl

/-- Claim C9: pruning removes exactly the history records strictly older
than the 24-hour cutoff: every older record is absent afterwards, every
record at or after the cutoff is still present, the surviving history is
a sublist of the original (records survive unmodified, in order), and
the notification-state table is untouched. -/
theorem C9_prune_deletes_only_expired (now : ℤ) (db : Db) :
    (∀ r ∈ db.history, r.recorded_at < now - twentyFourHoursMs →
      r ∉ (cleanupOldHistory now db).1.history) ∧
    (∀ r ∈ db.history, now - twentyFourHoursMs ≤ r.recorded_at →
      r ∈ (cleanupOldHistory now db).1.history) ∧
    List.Sublist (cleanupOldHistory now db).1.history db.history ∧
    (cleanupOldHistory now db).1.notifState = db.notifState := by
  refine ⟨?_, ?_, List.filter_sublist db.history, rfl⟩
  · intro r hr hold
    simp only [cleanupOldHistory, List.mem_filter]
    intro hc
    rw [decide_eq_true hold] at hc
    simp at hc
  · intro r hr hfresh
    simp only [cleanupOldHistory, List.mem_filter]
    refine ⟨hr, ?_⟩
    rw [decide_eq_false (not_lt.mpr hfresh)]
    rfl

/-- Witness for C9 at a concrete input: with `now` = 24h + 1000, a record
stamped 500 (older than the cutoff 1000) is deleted and a record stamped
1000 survives. -/
theorem C9_prune_deletes_only_expired_witness :
    (⟨1, 10, 500⟩ : HistoryRecord) ∉
      (cleanupOldHistory (twentyFourHoursMs + 1000)
        ⟨[], [⟨1, 10, 500⟩, ⟨1, 11, 1000⟩]⟩).1.history ∧
    (⟨1, 11, 1000⟩ : HistoryRecord) ∈
      (cleanupOldHistory (twentyFourHoursMs + 1000)
        ⟨[], [⟨1, 10, 500⟩, ⟨1, 11, 1000⟩]⟩).1.history :=
  ⟨(C9_prune_deletes_only_expired (twentyFourHoursMs + 1000)
      ⟨[], [⟨1, 10, 500⟩, ⟨1, 11, 1000⟩]⟩).1 ⟨1, 10, 500⟩ (by simp) (by decide),
   (C9_prune_deletes_only_expired (twentyFourHoursMs + 1000)
      ⟨[], [⟨1, 10, 500⟩, ⟨1, 11, 1000⟩]⟩).2.1 ⟨1, 11, 1000⟩ (by simp) (by decide)⟩

/-- Claim C10: within one cycle the two call sites of the deterministic
`findClosestCoordinate` — the history-recording path and the decision
path — are applied to identical inputs, so the value appended to the
alert's history equals the value the dedup decision is evaluated
against: both are the `aurora` field of the same matched sample. -/
theorem C10_history_and_decision_use_same_value (a : AlertRow)
    (coords : List GridSample) (now : ℤ) (db : Db) (s : GridSample)
    (hm : findClosestCoordinate coords a.latitude a.longitude = some s) :
    storeAuroraHistory false a coords now db
      = .ok ⟨db.notifState, db.history ++ [⟨a.id, s.aurora, now⟩]⟩ ∧
    checkSingleAlert a coords now db = checkAfterMatch a s.aurora now db := by
  constructor
  · unfold storeAuroraHistory
    rw [hm]
    rfl
  · unfold checkSingleAlert
    rw [hm]

/-- Witness for C10 at a concrete input: the record stored and the value
fed to the decision both come from the single matched sample. -/
theorem C10_history_and_decision_use_same_value_witness :
    storeAuroraHistory false (alertAtOrigin none none) [gridSampleAt 20] 0 emptyDb
      = .ok ⟨emptyDb.notifState,
          emptyDb.history ++ [⟨(alertAtOrigin none none).id, (gridSampleAt 20).aurora, 0⟩]⟩ ∧
    checkSingleAlert (alertAtOrigin none none) [gridSampleAt 20] 0 emptyDb
      = checkAfterMatch (alertAtOrigin none none) (gridSampleAt 20).aurora 0 emptyDb :=
  C10_history_and_decision_use_same_value (alertAtOrigin none none) [gridSampleAt 20]
    0 emptyDb (gridSampleAt 20)
    (findClosestCoordinate_singleton (gridSampleAt 20) _ _)

end Aurora
